import Mathlib

/-!
Verification of the BitGoPY resource-mapping and request-dispatch layer.

The definitions below are a shallow embedding of `bitgo/client.py` and
`bitgo/resource.py`.  Python values that can take several runtime types
(proxy descriptors, access tokens, JSON payloads, endpoint tables) are
embedded as small inductive types; Python exceptions become a `PyError`
error type carried by `Except`; Python `None` results become `Option.none`.
Python strings are Lean `String`s, and the handful of string primitives the
source uses (`split('/')`, `startswith`, `upper`, slicing) are re-implemented
structurally so every definition evaluates by kernel reduction.
-/

set_option autoImplicit false

/-- A decoded JSON value, the element type of a resource's property mapping. -/
inductive JsonValue where
  | str (s : String)
  | num (n : Int)
  | bool (b : Bool)
  | null
  | arr (elems : List JsonValue)
  | obj (entries : List (String × JsonValue))
deriving Repr

/-- The Python exceptions the embedded code can raise.  The first group are
the library's own exception classes from `bitgo/errors.py`; `typeError`,
`indexError`, `keyError` and `recursionError` are the builtin Python errors
(`TypeError`, `IndexError`, `KeyError`, and the `RuntimeError` signalling
that the interpreter recursion limit was exceeded). -/
inductive PyError where
  | invalidAccessToken
  | invalidClient
  | bitGoResourceException
  | invalidResourceEndpoint
  | invalidResourceEndpointUrl
  | invalidResourceMethod
  | bitGoClientException
  | typeError
  | indexError
  | keyError
  | attributeError
  | recursionError
deriving DecidableEq, Repr

/-! ### Python string primitives -/

/-- Split a character list at every occurrence of `c`, Python `str.split` style:
the empty input yields one empty piece, and separators at the ends yield empty
pieces, exactly like Python's `"".split('/') == ['']` and
`"/a".split('/') == ['', 'a']`. -/
def splitChar (c : Char) : List Char → List (List Char)
  | [] => [[]]
  | x :: xs =>
      if x = c then [] :: splitChar c xs
      else
        match splitChar c xs with
        | [] => [[x]]
        | l :: ls => (x :: l) :: ls

/-- Python `s.split('/')`. -/
def pySplitSlash (s : String) : List String :=
  (splitChar '/' s.data).map (fun l => String.mk l)

/-- Python `f.startswith(':')`. -/
def startsWithColon (s : String) : Bool :=
  match s.data with
  | [] => false
  | c :: _ => c = ':'

/-- Python `s.startswith('//')`. -/
def startsWithDoubleSlash (s : String) : Bool :=
  match s.data with
  | c1 :: c2 :: _ => c1 = '/' && c2 = '/'
  | _ => false

/-- Python slicing `s[1:len(s)]`: drop the first character. -/
def dropFirstChar (s : String) : String :=
  String.mk s.data.tail

/-- Python `s.upper()`. -/
def pyUpper (s : String) : String :=
  String.mk (s.data.map Char.toUpper)

/-- Python `"".join('/' + f for f in frags)`: every fragment rejoined with a
leading slash, as in line 194 of `resource.py`. -/
def joinWithSlash (frags : List String) : String :=
  String.join (frags.map (fun f => "/" ++ f))

/-! ### Client: proxy validation and construction (`bitgo/client.py`) -/

/-- The runtime value passed as a proxy descriptor: Python `None`, a
dictionary (modelled by its entries, keys and values both strings), or an
object of any other type. -/
inductive ProxyArg where
  | none
  | dict (entries : List (String × String))
  | nonDict
deriving DecidableEq, Repr

/-- Python `key in proxy.keys()` for a dictionary's entry list. -/
def dictHasKey (entries : List (String × String)) (k : String) : Bool :=
  (entries.map Prod.fst).contains k

/-- Embedding of `BitGoClient._validate_proxy` (client.py lines 67-83): a
`None` proxy passes; a non-dictionary raises `BitGoClientException`; for a
dictionary, when not all of ip, port, username, password are present, the
inner check requires ip and port and raises `BitGoClientException` otherwise. -/
def validate_proxy : ProxyArg → Except PyError Unit
  | ProxyArg.none => Except.ok ()
  | ProxyArg.nonDict => Except.error PyError.bitGoClientException
  | ProxyArg.dict entries =>
      if !(["ip", "port", "username", "password"].all (fun k => dictHasKey entries k)) then
        if !(["ip", "port"].all (fun k => dictHasKey entries k)) then
          Except.error PyError.bitGoClientException
        else
          Except.ok ()
      else
        Except.ok ()

/-- Python truthiness of a proxy value: `None` and the empty dictionary are
falsy, a non-empty dictionary and a generic object are truthy. -/
def proxyTruthy : ProxyArg → Bool
  | ProxyArg.none => false
  | ProxyArg.dict entries => !entries.isEmpty
  | ProxyArg.nonDict => true

/-- The `BitGoClient.ENVIRONMENT` class dictionary (client.py lines 24-25). -/
def ENVIRONMENT : List (String × String) :=
  [("test", "https://test.bitgo.com/api/v1"),
   ("prod", "https://bitgo.com/api/v1")]

/-- Lookup in the `ENVIRONMENT` dictionary. -/
def environmentLookup (k : String) : Option String :=
  match ENVIRONMENT.find? (fun p => p.fst = k) with
  | Option.none => Option.none
  | some p => some p.snd

/-- Modelled from the spec: the default user-agent string.  The source builds
it from `bitgo/version.py`, which is not among the source files; the spec only
requires "a user-agent string", and no claim depends on its content. -/
def USER_AGENT : String := "BitGoPY PythonClient"

/-- Python `a or b` for an optional string: `None` and the empty string are
falsy and select the default. -/
def pyOr (a : Option String) (b : String) : String :=
  match a with
  | Option.none => b
  | some s => if s = "" then b else s

/-- The state of a constructed `BitGoClient`. -/
structure BitGoClient where
  endpoint : String
  user_agent : String
  proxy : ProxyArg
deriving DecidableEq, Repr

/-- Embedding of `BitGoClient.__init__` (client.py lines 27-65):
`self.endpoint = env or self.ENVIRONMENT['test']`,
`self.user_agent = user_agent or self.USER_AGENT`, and the proxy is validated
only when truthy, then stored.  The `getD ""` default on the environment
lookup is unreachable because the key "test" is present in the literal table. -/
def clientInit (env : Option String) (user_agent : Option String) (proxy : ProxyArg) :
    Except PyError BitGoClient :=
  let endpoint := pyOr env ((environmentLookup "test").getD "")
  let ua := pyOr user_agent USER_AGENT
  if proxyTruthy proxy then
    match validate_proxy proxy with
    | Except.error e => Except.error e
    | Except.ok _ => Except.ok { endpoint := endpoint, user_agent := ua, proxy := proxy }
  else
    Except.ok { endpoint := endpoint, user_agent := ua, proxy := proxy }

/-- Embedding of `BitGoClient.set_proxy` (client.py lines 108-118): always
validates, then stores the proxy. -/
def set_proxy (c : BitGoClient) (proxy : ProxyArg) : Except PyError BitGoClient :=
  match validate_proxy proxy with
  | Except.error e => Except.error e
  | Except.ok _ => Except.ok { c with proxy := proxy }

/-! ### Resource instances (`bitgo/resource.py`) -/

/-- The runtime value passed as `access_token`: a string, a
`BitGoAccessToken` instance (wrapping its token string), or any other type
(which fails validation). -/
inductive AccessTokenArg where
  | str (s : String)
  | token (t : String)
  | invalid
deriving DecidableEq, Repr

/-- The runtime value passed as `client`: a `BitGoClient` instance or any
other type (which fails validation). -/
inductive ClientArg where
  | client (c : BitGoClient)
  | invalid
deriving DecidableEq, Repr

/-- The state of a constructed `BitGoResource`: the bound client and token
and the internal `_properties` dictionary, modelled as its entry list. -/
structure BitGoResource where
  client : BitGoClient
  access_token : AccessTokenArg
  properties : List (String × JsonValue)

/-- Python dictionary lookup `properties[k]` on a property entry list
(first matching key; a Python dictionary has unique keys). -/
def propLookup (entries : List (String × JsonValue)) (k : String) : Option JsonValue :=
  match entries.find? (fun p => p.fst = k) with
  | Option.none => Option.none
  | some p => some p.snd

/-- The key-by-key copy loop of `BitGoResource.__init__` (resource.py lines
99-100): `for key in properties: self._properties[key] = properties[key]`. -/
def copyProperties (properties : List (String × JsonValue)) : List (String × JsonValue) :=
  properties.map (fun p => (p.fst, p.snd))

/-- Embedding of `BitGoResource.__init__` (resource.py lines 72-100) together
with `_validate_requirements` (lines 115-132): a non-string, non-token
access token raises `InvalidAccessToken`; a non-client client raises
`InvalidClient`; otherwise the properties are copied entry by entry. -/
def resourceInit (client : ClientArg) (access_token : AccessTokenArg)
    (properties : List (String × JsonValue)) : Except PyError BitGoResource :=
  match access_token with
  | AccessTokenArg.invalid => Except.error PyError.invalidAccessToken
  | _ =>
      match client with
      | ClientArg.invalid => Except.error PyError.invalidClient
      | ClientArg.client c =>
          Except.ok { client := c, access_token := access_token,
                      properties := copyProperties properties }

/-- Embedding of `BitGoResource.__getitem__` (resource.py lines 102-106):
a missing key's `KeyError` is caught and re-raised as `AttributeError`. -/
def getitem (r : BitGoResource) (k : String) : Except PyError JsonValue :=
  match propLookup r.properties k with
  | some v => Except.ok v
  | Option.none => Except.error PyError.attributeError

/-- Attribute names genuinely present on a `BitGoResource` object, the ones
ordinary attribute lookup finds before Python ever calls `__getattr__`: the
three instance attributes set in `__init__`, the two class-level property
descriptors, the class-level methods, and the `ENDPOINT` class variable. -/
def genuineAttrNames : List String :=
  ["_client", "_access_token", "_properties", "client", "access_token",
   "ENDPOINT", "endpoint", "check_endpoint_exists", "get_action_endpoint",
   "request_resource", "from_json", "_validate_requirements"]

/-- The result of Python attribute access on a resource: either one of the
object's genuine attributes (whose identity no claim inspects) or a value
from the internal property mapping. -/
inductive AttrResult where
  | attrValue
  | propValue (v : JsonValue)

/-- Embedding of Python attribute access `getattr(r, k)` including
`BitGoResource.__getattr__` (resource.py lines 108-113), with explicit fuel
standing for the CPython recursion limit.  Ordinary lookup succeeds for
genuine attributes; otherwise Python invokes `__getattr__`, whose body is
`try: return getattr(self, k) except AttributeError: return self._properties[k]`:
it re-enters this very function on the same name, consuming one recursion
frame; only an `AttributeError` from the inner call would reach the fallback
that reads `_properties`, and an uncaught lookup in `_properties` would raise
`KeyError`.  Exhausted fuel is the interpreter's recursion-limit error (a
`RuntimeError`, not an `AttributeError`). -/
def getattrFuel : Nat → BitGoResource → String → Except PyError AttrResult
  | 0, _, _ => Except.error PyError.recursionError
  | fuel + 1, r, k =>
      if genuineAttrNames.contains k then Except.ok AttrResult.attrValue
      else
        match getattrFuel fuel r k with
        | Except.error PyError.attributeError =>
            match propLookup r.properties k with
            | some v => Except.ok (AttrResult.propValue v)
            | Option.none => Except.error PyError.keyError
        | other => other

/-! ### Endpoint resolution (`bitgo/resource.py`) -/

/-- The URL slot of an `ENDPOINT` table entry at runtime: a string, Python
`None`, or an object of any other type. -/
inductive PyUrl where
  | str (s : String)
  | pynone
  | nonStr
deriving DecidableEq, Repr

/-- An `ENDPOINT` class dictionary: action name to (url, http method) pair. -/
abbrev EndpointTable := List (String × (PyUrl × String))

/-- Python `cls.ENDPOINT.get(action, None)`. -/
def endpointGet (table : EndpointTable) (action : String) : Option (PyUrl × String) :=
  match table.find? (fun p => p.fst = action) with
  | Option.none => Option.none
  | some p => some p.snd

/-- The runtime value of the `ENDPOINT` class variable: unset (Python `None`),
set to a non-dictionary, or a dictionary. -/
inductive EndpointVar where
  | pynone
  | nonDict
  | dict (table : EndpointTable)

/-- The accepted http method list of `get_action_endpoint`
(resource.py line 245). -/
def HTTP_METHODS : List String := ["POST", "GET", "DELETE", "PUT"]

/-- Embedding of `BitGoResource.get_action_endpoint` (resource.py lines
226-249).  Faithful to the source, including its slip: the first statement is
`endpoint, method = cls.ENDPOINT.get(action, None)`, so when `action` is
absent the `None` default is tuple-unpacked and Python raises `TypeError`
before the `if endpoint is None` guard on the next line can run; that guard
fires only for a present entry whose url slot is literally `None`. -/
def get_action_endpoint (table : EndpointTable) (action : String) :
    Except PyError (String × String) :=
  match endpointGet table action with
  | Option.none => Except.error PyError.typeError
  | some (url, method) =>
      match url with
      | PyUrl.pynone => Except.error PyError.invalidResourceEndpoint
      | PyUrl.nonStr => Except.error PyError.invalidResourceEndpointUrl
      | PyUrl.str s =>
          if HTTP_METHODS.contains (pyUpper method) then Except.ok (s, method)
          else Except.error PyError.invalidResourceMethod

/-- Embedding of `BitGoResource.check_endpoint_exists` (resource.py lines
204-224): `ENDPOINT` must be set and be a dictionary. -/
def check_endpoint_exists : EndpointVar → Except PyError Unit
  | EndpointVar.pynone => Except.error PyError.invalidResourceEndpoint
  | EndpointVar.nonDict => Except.error PyError.invalidResourceEndpoint
  | EndpointVar.dict _ => Except.ok ()

/-- The substitution loop of `map_to_url` (resource.py lines 190-194): walk
the fragments; a fragment starting with a colon is replaced by
`args_list.pop(0)`, which raises `IndexError` on an empty list; other
fragments pass through. -/
def mapFragments : List String → List String → Except PyError (List String)
  | [], _ => Except.ok []
  | f :: fs, args =>
      if startsWithColon f then
        match args with
        | [] => Except.error PyError.indexError
        | a :: rest =>
            match mapFragments fs rest with
            | Except.error e => Except.error e
            | Except.ok l => Except.ok (a :: l)
      else
        match mapFragments fs args with
        | Except.error e => Except.error e
        | Except.ok l => Except.ok (f :: l)

/-- Substitution as the spec words it: each flagged segment is substituted,
in left-to-right order, with the corresponding positional argument (consumed
in order); non-flagged segments pass through unchanged.  A total function:
the empty-argument case of a flagged segment cannot occur when the argument
count matches the flagged-segment count. -/
def substituteSpec : List String → List String → List String
  | [], _ => []
  | f :: fs, args =>
      if startsWithColon f then
        match args with
        | [] => []
        | a :: rest => a :: substituteSpec fs rest
      else f :: substituteSpec fs args

/-- The `mutable_fragments` list of `map_to_url` (resource.py line 179). -/
def mutableFragments (endpoint : String) : List String :=
  (pySplitSlash endpoint).filter (fun f => startsWithColon f)

/-- The final leading-double-slash collapse of `map_to_url`
(resource.py lines 195-198). -/
def collapseLeading (s : String) : String :=
  if startsWithDoubleSlash s then dropFirstChar s else s

/-- Embedding of the inner `map_to_url` function of `BitGoResource.endpoint`
(resource.py lines 162-198): split the template on `/`, collect the
colon-flagged fragments, raise `InvalidResourceEndpointUrl` if the argument
count differs, otherwise rebuild the path with each (substituted) fragment
prefixed by `/` and collapse a leading double slash. -/
def map_to_url (endpoint : String) (args : List String) : Except PyError String :=
  let fragments := pySplitSlash endpoint
  if args.length ≠ (fragments.filter (fun f => startsWithColon f)).length then
    Except.error PyError.invalidResourceEndpointUrl
  else
    match mapFragments fragments args with
    | Except.error e => Except.error e
    | Except.ok mapped => Except.ok (collapseLeading (joinWithSlash mapped))

/-- Embedding of the classmethod `BitGoResource.endpoint` (resource.py lines
150-202): `check_endpoint_exists`, then `get_action_endpoint`, then
`map_to_url`.  The non-dictionary arms after a passed check are unreachable. -/
def endpointUrl (ev : EndpointVar) (action : String) (args : List String) :
    Except PyError String :=
  match check_endpoint_exists ev with
  | Except.error e => Except.error e
  | Except.ok _ =>
      match ev with
      | EndpointVar.dict table =>
          match get_action_endpoint table action with
          | Except.error e => Except.error e
          | Except.ok (url, _) => map_to_url url args
      | _ => Except.error PyError.invalidResourceEndpoint

/-! ### Rehydration and the request lifecycle (`bitgo/resource.py`) -/

/-- The runtime value passed to `from_json` as `json_data`: a textual JSON
document, an already-decoded dictionary, or anything else (a list, a scalar,
an arbitrary object). -/
inductive JsonData where
  | str (s : String)
  | dict (entries : List (String × JsonValue))
  | other
deriving Repr

/-- Embedding of `BitGoResource.from_json` (resource.py lines 290-309), with
`json.loads` abstracted as the `parse` argument (its failure is Python
`ValueError`).  Faithful to the source, including its slip: the string branch
rebinds the parsed value and then falls off the end of the function, so a
successfully parsed textual document makes `from_json` return Python `None`
(here `Option.none`) — only the dictionary branch constructs an instance, and
only the final `else` raises. -/
def from_json (parse : String → Except Unit JsonValue) (client : ClientArg)
    (access_token : AccessTokenArg) : JsonData → Except PyError (Option BitGoResource)
  | JsonData.str s =>
      match parse s with
      | Except.error _ => Except.error PyError.bitGoResourceException
      | Except.ok _ => Except.ok Option.none
  | JsonData.dict entries =>
      match resourceInit client access_token entries with
      | Except.error e => Except.error e
      | Except.ok r => Except.ok (some r)
  | JsonData.other => Except.error PyError.bitGoResourceException

/-- Embedding of `BitGoResource.request_resource` (resource.py lines 251-288)
for a resource type whose `ENDPOINT` is a dictionary: look up the method via
`get_action_endpoint`, resolve the mapped url via the `endpoint` classmethod,
perform the HTTP round trip (`client.request`, whose transport behaviour is
outside this model: its decoded JSON body enters as the `response` argument),
and rehydrate through `from_json`. -/
def request_resource (table : EndpointTable) (action : String) (args : List String)
    (client : ClientArg) (access_token : AccessTokenArg)
    (parse : String → Except Unit JsonValue) (response : JsonData) :
    Except PyError (Option BitGoResource) :=
  match get_action_endpoint table action with
  | Except.error e => Except.error e
  | Except.ok _ =>
      match endpointUrl (EndpointVar.dict table) action args with
      | Except.error e => Except.error e
      | Except.ok _ => from_json parse client access_token response

/-- Python `list(args).append(resource_id)` (resource.py line 342): the
`append` method mutates the freshly built temporary list and returns `None`,
so the binding receives `None`. -/
def pyListAppendResult (_args : List String) (_resource_id : String) : Option (List String) :=
  Option.none

/-- Python argument unpacking `*args` applied to a value that may be `None`:
unpacking `None` raises `TypeError`. -/
def starUnpack : Option (List String) → Except PyError (List String)
  | Option.none => Except.error PyError.typeError
  | some xs => Except.ok xs

/-- Embedding of `ReadMixin.get` (resource.py lines 335-347):
`args = list(args).append(resource_id)` binds `None`, and the subsequent
`cls.request_resource(..., *args, ...)` call unpacks it. -/
def readMixinGet (table : EndpointTable) (client : ClientArg)
    (access_token : AccessTokenArg) (resource_id : String) (args : List String)
    (parse : String → Except Unit JsonValue) (response : JsonData) :
    Except PyError (Option BitGoResource) :=
  match starUnpack (pyListAppendResult args resource_id) with
  | Except.error e => Except.error e
  | Except.ok a => request_resource table "READ" a client access_token parse response

/-! ### Concrete objects used by the closed theorems -/

/-- A concrete constructed client (the default test environment). -/
def client0 : BitGoClient :=
  { endpoint := "https://test.bitgo.com/api/v1", user_agent := USER_AGENT,
    proxy := ProxyArg.none }

/-- A concrete constructed resource holding one property. -/
def r0 : BitGoResource :=
  { client := client0, access_token := AccessTokenArg.str "tok",
    properties := [("wallets", JsonValue.arr [])] }

/-- A concrete stand-in for `json.loads` sufficient for the closed theorems:
it decodes the two-character-escaped document `\x7b"a": 1\x7d` (a JSON object
with one entry) and rejects every other input with `ValueError`. -/
def parse0 : String → Except Unit JsonValue := fun s =>
  if s = "\x7b\"a\": 1\x7d" then Except.ok (JsonValue.obj [("a", JsonValue.num 1)])
  else Except.error ()

/-! ### Helper lemmas -/

/-- The key-by-key property copy preserves the entry list. -/
theorem copyProperties_eq (entries : List (String × JsonValue)) :
    copyProperties entries = entries := by
  simp [copyProperties]

/-- For a name that is not a genuine attribute, Python attribute access loops
in `__getattr__` until the recursion limit: every fuel budget ends in the
recursion-limit error, so the inner call never produces the `AttributeError`
that alone would reach the property-mapping fallback. -/
theorem getattrFuel_not_genuine (fuel : Nat) (r : BitGoResource) (k : String)
    (h : genuineAttrNames.contains k = false) :
    getattrFuel fuel r k = Except.error PyError.recursionError := by
  induction fuel with
  | zero => rfl
  | succ n ih =>
      have hmem : k ∉ genuineAttrNames := by simpa using h
      simp [getattrFuel, hmem, ih]

/-- When at least as many positional arguments as flagged fragments are
supplied, the substitution loop never exhausts the argument list and agrees
with the total left-to-right substitution. -/
theorem mapFragments_ok (fs : List String) (args : List String)
    (h : (fs.filter (fun f => startsWithColon f)).length ≤ args.length) :
    mapFragments fs args = Except.ok (substituteSpec fs args) := by
  induction fs generalizing args with
  | nil => rfl
  | cons f fs ih =>
      cases hc : startsWithColon f with
      | false =>
          have hlen : (fs.filter (fun f => startsWithColon f)).length ≤ args.length := by
            simpa [List.filter_cons, hc] using h
          simp [mapFragments, substituteSpec, hc, ih args hlen]
      | true =>
          cases args with
          | nil =>
              exfalso
              simp [List.filter_cons, hc] at h
          | cons a rest =>
              have hlen : (fs.filter (fun f => startsWithColon f)).length ≤ rest.length := by
                have := h
                simp [List.filter_cons, hc] at this
                omega
              simp [mapFragments, substituteSpec, hc, ih rest hlen]

/-! ### Claim theorems -/

/-- C2: for every URL template with exactly N colon-flagged segments,
resolving with a number of positional arguments different from N fails with
`InvalidResourceEndpointUrl`, and resolving with exactly N arguments
succeeds, substituting each flagged segment in left-to-right order with the
corresponding positional argument and leaving other segments unchanged. -/
theorem map_to_url_arity (endpoint : String) (args : List String) :
    (args.length ≠ (mutableFragments endpoint).length →
        map_to_url endpoint args = Except.error PyError.invalidResourceEndpointUrl) ∧
    (args.length = (mutableFragments endpoint).length →
        map_to_url endpoint args =
          Except.ok (collapseLeading (joinWithSlash
            (substituteSpec (pySplitSlash endpoint) args)))) := by
  refine ⟨fun h => ?_, fun h => ?_⟩
  · unfold map_to_url
    rw [if_pos (by simpa [mutableFragments] using h)]
  · have hlen : ((pySplitSlash endpoint).filter (fun f => startsWithColon f)).length ≤
        args.length := by
      simp [mutableFragments] at h
      omega
    unfold map_to_url
    rw [if_neg (by simp [mutableFragments] at h; omega), mapFragments_ok _ _ hlen]

/-- Witness for C2 at the template `wallet/:id`: two arguments fail with
`InvalidResourceEndpointUrl`, one argument substitutes the flagged segment. -/
theorem map_to_url_arity_witness :
    map_to_url "wallet/:id" ["a", "b"] = Except.error PyError.invalidResourceEndpointUrl ∧
    map_to_url "wallet/:id" ["abc123"] =
      Except.ok (collapseLeading (joinWithSlash
        (substituteSpec (pySplitSlash "wallet/:id") ["abc123"]))) :=
  ⟨(map_to_url_arity "wallet/:id" ["a", "b"]).1 (by decide),
   (map_to_url_arity "wallet/:id" ["abc123"]).2 (by decide)⟩

/-- C6: round-trip property fidelity: constructing a resource from a property
mapping succeeds for a valid client and token, and item access on any key of
the mapping returns the original value unchanged. -/
theorem resource_roundtrip (c : BitGoClient) (tok : String)
    (entries : List (String × JsonValue)) (k : String) (v : JsonValue)
    (h : propLookup entries k = some v) :
    resourceInit (ClientArg.client c) (AccessTokenArg.str tok) entries =
      Except.ok { client := c, access_token := AccessTokenArg.str tok,
                  properties := copyProperties entries } ∧
    getitem { client := c, access_token := AccessTokenArg.str tok,
              properties := copyProperties entries } k = Except.ok v := by
  refine ⟨rfl, ?_⟩
  simp [getitem, copyProperties_eq, h]

/-- Witness for C6 on the property mapping holding one key `wallets` bound to
the empty array. -/
theorem resource_roundtrip_witness :
    resourceInit (ClientArg.client client0) (AccessTokenArg.str "tok")
        [("wallets", JsonValue.arr [])] =
      Except.ok { client := client0, access_token := AccessTokenArg.str "tok",
                  properties := copyProperties [("wallets", JsonValue.arr [])] } ∧
    getitem { client := client0, access_token := AccessTokenArg.str "tok",
              properties := copyProperties [("wallets", JsonValue.arr [])] } "wallets" =
      Except.ok (JsonValue.arr []) :=
  resource_roundtrip client0 "tok" [("wallets", JsonValue.arr [])] "wallets"
    (JsonValue.arr []) rfl

/-- C7 counterexample: on a concrete instance, attribute (dot) access for the
unknown name `missing` exhausts the recursion limit (here fuel 5) and fails
with the recursion-limit runtime error, which is not the attribute error the
claim requires for every property access. -/
theorem dot_access_unknown_not_attribute_error :
    getattrFuel 5 r0 "missing" = Except.error PyError.recursionError ∧
    PyError.recursionError ≠ PyError.attributeError :=
  ⟨rfl, by decide⟩

/-- C7 amended: for a name absent from the property mapping and not a genuine
attribute, item access fails with `AttributeError` and never returns a
default, while attribute (dot) access never returns any value either — it
fails by exhausting the recursion limit rather than with an attribute error. -/
theorem unknown_property_access_fails (r : BitGoResource) (k : String)
    (h1 : propLookup r.properties k = Option.none)
    (h2 : genuineAttrNames.contains k = false) :
    getitem r k = Except.error PyError.attributeError ∧
    ∀ fuel res, getattrFuel fuel r k ≠ Except.ok res := by
  refine ⟨by simp [getitem, h1], fun fuel res hcontra => ?_⟩
  rw [getattrFuel_not_genuine fuel r k h2] at hcontra
  exact Except.noConfusion hcontra

/-- Witness for the amended C7 at the concrete instance `r0` and the unknown
name `missing`. -/
theorem unknown_property_access_fails_witness :
    getitem r0 "missing" = Except.error PyError.attributeError ∧
    getattrFuel 3 r0 "missing" ≠ Except.ok AttrResult.attrValue :=
  ⟨(unknown_property_access_fails r0 "missing" rfl rfl).1,
   (unknown_property_access_fails r0 "missing" rfl rfl).2 3 AttrResult.attrValue⟩

/-- C10: for any name that is not a genuine attribute of the object,
attribute access loops inside `__getattr__` (which re-invokes `getattr` on
the same name) until the recursion limit, for every limit; it therefore never
raises `AttributeError` itself and never reaches the fallback that would read
the property mapping, so stored JSON properties are reachable only through
item access, which does return them. -/
theorem getattr_fallback_unreachable (r : BitGoResource) (k : String)
    (h : genuineAttrNames.contains k = false) :
    (∀ fuel, getattrFuel fuel r k = Except.error PyError.recursionError) ∧
    (∀ v, propLookup r.properties k = some v → getitem r k = Except.ok v) := by
  refine ⟨fun fuel => getattrFuel_not_genuine fuel r k h, fun v hv => ?_⟩
  simp [getitem, hv]

/-- Witness for C10 at the concrete instance `r0`, whose property `wallets`
is unreachable by dot access but returned by item access. -/
theorem getattr_fallback_unreachable_witness :
    getattrFuel 4 r0 "wallets" = Except.error PyError.recursionError ∧
    getitem r0 "wallets" = Except.ok (JsonValue.arr []) :=
  ⟨(getattr_fallback_unreachable r0 "wallets" rfl).1 4,
   (getattr_fallback_unreachable r0 "wallets" rfl).2 (JsonValue.arr []) rfl⟩

/-- C1: code-bug evidence for `from_json` on textual input.  The concrete
JSON document parses successfully to a key/value object, yet `from_json`
returns Python `None` (the string branch rebinds the parsed value and then
falls off the end of the function, never constructing the instance); parse
failure does raise `BitGoResourceException`, and the already-decoded
dictionary branch does construct the instance the claim describes. -/
theorem from_json_textual_returns_none :
    parse0 "\x7b\"a\": 1\x7d" = Except.ok (JsonValue.obj [("a", JsonValue.num 1)]) ∧
    from_json parse0 (ClientArg.client client0) (AccessTokenArg.str "tok")
        (JsonData.str "\x7b\"a\": 1\x7d") = Except.ok Option.none ∧
    from_json parse0 (ClientArg.client client0) (AccessTokenArg.str "tok")
        (JsonData.str "not json") = Except.error PyError.bitGoResourceException ∧
    from_json parse0 (ClientArg.client client0) (AccessTokenArg.str "tok")
        (JsonData.dict [("a", JsonValue.num 1)]) =
      Except.ok (some { client := client0, access_token := AccessTokenArg.str "tok",
                        properties := [("a", JsonValue.num 1)] }) :=
  ⟨rfl, rfl, rfl, rfl⟩

/-- C3: code-bug evidence for endpoint lookup of an absent action.  With the
valid table mapping only LIST, resolving action READ raises Python
`TypeError` (the `None` default of `ENDPOINT.get` is tuple-unpacked), both in
`get_action_endpoint` and through `request_resource`, instead of the
`InvalidResourceEndpoint` the claim requires. -/
theorem missing_action_raises_typeerror :
    get_action_endpoint [("LIST", (PyUrl.str "wallet", "GET"))] "READ" =
      Except.error PyError.typeError ∧
    request_resource [("LIST", (PyUrl.str "wallet", "GET"))] "READ" []
        (ClientArg.client client0) (AccessTokenArg.str "tok") parse0 (JsonData.dict []) =
      Except.error PyError.typeError ∧
    PyError.typeError ≠ PyError.invalidResourceEndpoint :=
  ⟨rfl, rfl, by decide⟩

/-- C4: code-bug evidence for `ReadMixin.get`.  With the READ table entry
`wallet/:id`, calling get with resource id `abc123` raises Python `TypeError`
(`list(args).append(resource_id)` binds `None`, which the subsequent `*args`
unpacking rejects) before any dispatch; moreover even the intended dispatch
would resolve the path to `/wallet/abc123` (leading slash), not
`wallet/abc123`. -/
theorem read_mixin_get_typeerror :
    readMixinGet [("READ", (PyUrl.str "wallet/:id", "GET"))] (ClientArg.client client0)
        (AccessTokenArg.str "tok") "abc123" [] parse0 (JsonData.dict []) =
      Except.error PyError.typeError ∧
    map_to_url "wallet/:id" ["abc123"] = Except.ok "/wallet/abc123" :=
  ⟨rfl, rfl⟩

/-- C5 counterexample: resolving the template `wallet` with zero positional
arguments yields the path `/wallet`, not the bare `wallet` the claim states:
the rebuild loop prefixes every fragment with a slash. -/
theorem list_wallet_not_bare :
    map_to_url "wallet" [] = Except.ok "/wallet" ∧
    map_to_url "wallet" [] ≠ Except.ok "wallet" :=
  ⟨rfl, fun h => absurd (Except.ok.inj h) (by decide)⟩

/-- C5 amended: resolving the entry mapping LIST to `wallet` with verb GET
and zero positional arguments yields verb GET and path `/wallet` (every
fragment is rejoined with a leading slash), and a template that itself begins
with a slash produces a leading double slash that is collapsed to a single
leading slash. -/
theorem list_wallet_resolution :
    get_action_endpoint [("LIST", (PyUrl.str "wallet", "GET"))] "LIST" =
      Except.ok ("wallet", "GET") ∧
    map_to_url "wallet" [] = Except.ok "/wallet" ∧
    map_to_url "/wallet" [] = Except.ok "/wallet" :=
  ⟨rfl, rfl, rfl⟩

/-- C8 counterexample: a proxy descriptor carrying ip, port and exactly one
credential field (username without password) is accepted by validation and by
`set_proxy`, though the claim requires it to fail with the configuration
error. -/
theorem proxy_one_credential_accepted :
    validate_proxy (ProxyArg.dict [("ip", "10.0.0.1"), ("port", "8080"), ("username", "u")]) =
      Except.ok () ∧
    set_proxy client0 (ProxyArg.dict [("ip", "10.0.0.1"), ("port", "8080"), ("username", "u")]) =
      Except.ok { client0 with
        proxy := ProxyArg.dict [("ip", "10.0.0.1"), ("port", "8080"), ("username", "u")] } :=
  ⟨rfl, rfl⟩

/-- C8 amended: proxy validation fails with the configuration error exactly
when the descriptor is not a mapping or is missing the required ip/port keys;
credential fields are never checked, so a descriptor with ip and port and any
combination of username/password is accepted. -/
theorem proxy_validation_iff (proxy : ProxyArg) :
    validate_proxy proxy = Except.error PyError.bitGoClientException ↔
      (proxy = ProxyArg.nonDict ∨
       ∃ entries, proxy = ProxyArg.dict entries ∧
         (dictHasKey entries "ip" = false ∨ dictHasKey entries "port" = false)) := by
  cases proxy with
  | none => simp [validate_proxy]
  | nonDict => simp [validate_proxy]
  | dict entries =>
      constructor
      · intro h
        refine Or.inr ⟨entries, rfl, ?_⟩
        by_cases hip : dictHasKey entries "ip" = true
        · by_cases hport : dictHasKey entries "port" = true
          · exfalso
            simp [validate_proxy, hip, hport] at h
          · exact Or.inr (by simpa using hport)
        · exact Or.inl (by simpa using hip)
      · rintro (h | ⟨e, he, hcase⟩)
        · exact absurd h (by simp)
        · cases he
          rcases hcase with h1 | h1 <;> simp [validate_proxy, h1]

/-- C9: code-bug evidence for environment selection.  Constructing a client
with env `prod` binds the endpoint to the literal string `prod` — the
`ENVIRONMENT` table entry holding the prod base URL is never read — while the
default construction does bind the test base URL. -/
theorem client_env_prod_literal :
    clientInit (some "prod") Option.none ProxyArg.none =
      Except.ok { endpoint := "prod", user_agent := USER_AGENT, proxy := ProxyArg.none } ∧
    environmentLookup "prod" = some "https://bitgo.com/api/v1" ∧
    clientInit Option.none Option.none ProxyArg.none = Except.ok client0 ∧
    ("prod" : String) ≠ "https://bitgo.com/api/v1" :=
  ⟨rfl, rfl, rfl, by decide⟩
